import Mathlib

/-!
Verification development for the hipages-poller repository
(src/lead-detector.js).  The change-detection and notification engine of
the `LeadDetector` class is shallowly embedded here: JSON-like payload
values become an inductive `JVal` (the string/object/array fragment, which
is the fragment the detection code distinguishes), JS objects become
association lists of fields, stateful methods become explicit
state-passing functions, the wall clock and the HTTP/webhook transport
become explicit parameters describing the outcome the environment
produced.  Each definition is a direct translation of the like-named
function of `lead-detector.js`.
-/

/-- JSON-like values as they flow through the change detection code.
The embedding covers the string / object / array fragment of JSON, the
fragment the detector's own branching distinguishes (`typeof x ===
'object'`, `Array.isArray`); numeric, boolean and null payload values are
outside the modelled domain. -/
inductive JVal where
  | str (s : String)
  | obj (fields : List (String × JVal))
  | arr (elems : List JVal)

/-- A JS lead object, as an ordered association list of fields
(key order is the JS object key insertion order). -/
abbrev Lead : Type := List (String × JVal)

/-- Property read `lead[f]`: `none` models JS `undefined`. -/
def getField (l : Lead) (f : String) : Option JVal :=
  match l with
  | [] => none
  | (k, v) :: t => if k == f then some v else getField t f

/-- `Object.prototype.hasOwnProperty` on a lead object. -/
def hasOwn (l : Lead) (f : String) : Bool :=
  (getField l f).isSome

/-- JS truthiness of a (string/object/array) value: the empty string is
falsy, every other value in the modelled fragment is truthy. -/
def truthy : JVal → Bool
  | .str s => !(s == "")
  | .obj _ => true
  | .arr _ => true

/-- Truthiness of `lead[f]` (absent fields are falsy `undefined`). -/
def truthyField (l : Lead) (f : String) : Bool :=
  match getField l f with
  | some v => truthy v
  | none => false

/-- JS object spread update `{...l, f: v}` restricted to the lookups we
perform: an existing key keeps its position with the value overwritten,
a new key is appended. -/
def setField (l : Lead) (f : String) (v : JVal) : Lead :=
  if hasOwn l f then
    l.map (fun kv => if kv.1 == f then (kv.1, v) else kv)
  else
    l ++ [(f, v)]

mutual
/-- Structural value equality, modelling JS `===` on the values the
detector actually compares (string-valued fields compare by value; for
a value compared with itself, JS reference equality and structural
equality agree, which is the only way object values reach `===` here). -/
def beqJVal : JVal → JVal → Bool
  | .str a, .str b => a == b
  | .obj fs, .obj gs => beqFields fs gs
  | .arr xs, .arr ys => beqElems xs ys
  | _, _ => false

def beqFields : List (String × JVal) → List (String × JVal) → Bool
  | [], [] => true
  | (k, v) :: t, (k2, v2) :: t2 => k == k2 && beqJVal v v2 && beqFields t t2
  | _, _ => false

def beqElems : List JVal → List JVal → Bool
  | [], [] => true
  | v :: t, v2 :: t2 => beqJVal v v2 && beqElems t t2
  | _, _ => false
end

/-- `===` on two possibly-`undefined` property reads (both absent:
`undefined === undefined` is true). -/
def optEq : Option JVal → Option JVal → Bool
  | some a, some b => beqJVal a b
  | none, none => true
  | _, _ => false

mutual
/-- JS string coercion of a value, as used by `Array.prototype.join`
inside `createUniqueKey`: objects print as `[object Object]`, arrays
join their elements with commas. -/
def jvalToString : JVal → String
  | .str s => s
  | .obj _ => "[object Object]"
  | .arr xs => arrToString xs

def arrToString : List JVal → String
  | [] => ""
  | v :: t =>
    match t with
    | [] => jvalToString v
    | _ :: _ => jvalToString v ++ "," ++ arrToString t
end

/-- Is `needle` a prefix of the character list. -/
def isPrefixOfL : List Char → List Char → Bool
  | [], _ => true
  | _ :: _, [] => false
  | c :: cs, d :: ds => c == d && isPrefixOfL cs ds

/-- Character-list kernel of `String.prototype.includes`. -/
def containsSubL (needle : List Char) : List Char → Bool
  | [] => isPrefixOfL needle []
  | c :: t => isPrefixOfL needle (c :: t) || containsSubL needle t

/-- `hay.includes(needle)` from JS. -/
def containsSub (hay needle : String) : Bool :=
  containsSubL needle.data hay.data

/-- `CONFIG.changeDetection` from lead-detector.js. -/
structure ChangeDetectionConfig where
  ignoreFields : List String
  onlyNotifyNewLeads : Bool
  minNewLeadsToNotify : Nat
  deduplicationWindow : Nat

/-- The literal `CONFIG.changeDetection` object. -/
def CONFIG_changeDetection : ChangeDetectionConfig :=
  { ignoreFields := ["timestamp", "csrf", "session", "time", "date", "updated_at", "created_at"]
    onlyNotifyNewLeads := true
    minNewLeadsToNotify := 1
    deduplicationWindow := 5000 }

/-- `CONFIG.timing` from lead-detector.js. -/
structure TimingConfig where
  pollingInterval : Nat
  baseBackoffDelay : Nat
  maxBackoffDelay : Nat
  pageLoadTimeout : Nat
  loginRetryDelay : Nat

/-- The literal `CONFIG.timing` object. -/
def CONFIG_timing : TimingConfig :=
  { pollingInterval := 1000
    baseBackoffDelay := 1000
    maxBackoffDelay := 30000
    pageLoadTimeout := 30000
    loginRetryDelay := 60000 }

/-- The field list of `createUniqueKey` and `areLeadsEqual`
(`fieldsToCompare` in the source). -/
def fieldsToCompare : List String :=
  ["name", "title", "location", "address", "job", "type", "category"]

/-- `leadProperties` from `isLikelyLeadObject`. -/
def leadProperties : List String :=
  ["id", "name", "title", "description", "location", "address", "job", "type", "category"]

/-- `createUniqueKey(lead)`: join the truthy values of the key fields,
in fixed priority order, with a pipe separator. -/
def createUniqueKey (lead : Lead) : String :=
  let keyParts := fieldsToCompare.filterMap fun f =>
    match getField lead f with
    | some v => if truthy v then some (jvalToString v) else none
    | none => none
  String.intercalate "|" keyParts

/-- `isLikelyLeadObject(obj)` on an object's field list: has one of the
known lead properties, or a key whose name contains a lead-domain term. -/
def isLikelyLeadObject (fs : List (String × JVal)) : Bool :=
  (leadProperties.any fun p => hasOwn fs p) ||
    (fs.any fun kv =>
      containsSub kv.1 "lead" || containsSub kv.1 "job" ||
        containsSub kv.1 "customer" || containsSub kv.1 "client")

/-- JS object spread `{...item}` of an arbitrary value: objects keep
their fields, arrays and strings spread into index-keyed fields. -/
def spreadFields : JVal → Lead
  | .obj fs => fs
  | .arr xs => xs.enum.map fun p => (toString p.1, p.2)
  | .str s => s.data.enum.map fun p => (toString p.1, JVal.str (String.singleton p.2))

/-- One item of the direct-array branch of `extractLeadObjects` (and the
push step of the nested branch): when `item.id` is falsy, attach the
derived `uniqueKey`. -/
def extractItem (v : JVal) : Lead :=
  let fs := spreadFields v
  if truthyField fs "id" then fs
  else setField fs "uniqueKey" (JVal.str (createUniqueKey fs))

/-- `typeof v === 'object'` for the modelled fragment (arrays included,
strings excluded). -/
def isObjectType : JVal → Bool
  | .obj _ => true
  | .arr _ => true
  | .str _ => false

mutual
/-- `processItem` of `extractLeadObjects`: push likely-lead objects,
recurse into arrays element-wise and into the object-typed values of
objects.  `isLikelyLeadObject` is false on arrays (their index keys carry
no lead-domain term and arrays own none of the lead properties), so the
array case only recurses. -/
def processItem : JVal → List Lead
  | .str _ => []
  | .obj fs =>
    (if isLikelyLeadObject fs then [extractItem (.obj fs)] else []) ++ processVals fs
  | .arr xs => processElems xs

def processVals : List (String × JVal) → List Lead
  | [] => []
  | (_, v) :: t =>
    (match v with
     | .str _ => []
     | .obj fs => processItem (.obj fs)
     | .arr xs => processItem (.arr xs)) ++ processVals t

def processElems : List JVal → List Lead
  | [] => []
  | v :: t => processItem v ++ processElems t
end

/-- `extractLeadObjects(array)`: direct mapping when the first element is
object-typed, otherwise the recursive likely-lead search over the whole
array value. -/
def extractLeadObjects (array : List JVal) : List Lead :=
  match array with
  | v :: rest =>
    if isObjectType v then (v :: rest).map extractItem
    else processItem (.arr (v :: rest))
  | [] => processItem (.arr [])

/-- `areLeadsEqual(lead1, lead2)`: compare ids when both truthy, else
unique keys when both truthy, else the fixed field list, skipping any
field absent from either side. -/
def areLeadsEqual (lead1 lead2 : Lead) : Bool :=
  if truthyField lead1 "id" && truthyField lead2 "id" then
    optEq (getField lead1 "id") (getField lead2 "id")
  else if truthyField lead1 "uniqueKey" && truthyField lead2 "uniqueKey" then
    optEq (getField lead1 "uniqueKey") (getField lead2 "uniqueKey")
  else
    fieldsToCompare.all fun field =>
      if !(hasOwn lead1 field) || !(hasOwn lead2 field) then true
      else optEq (getField lead1 field) (getField lead2 field)

/-- The `{hasChanges, newLeads}` result of the diff functions. -/
structure DiffResult where
  hasChanges : Bool
  newLeads : List Lead

/-- `detectLeadChangesFromArrays(previousArray, currentArray)`. -/
def detectLeadChangesFromArrays (previousArray currentArray : List JVal) : DiffResult :=
  let previousLeads := extractLeadObjects previousArray
  let currentLeads := extractLeadObjects currentArray
  let newLeads := currentLeads.filter fun currentLead =>
    !(previousLeads.any fun prevLead => areLeadsEqual prevLead currentLead)
  { hasChanges := decide (0 < newLeads.length), newLeads := newLeads }

/-- JS `\w` character class: ASCII letters, digits, underscore. -/
def isWordChar (c : Char) : Bool :=
  c.isAlpha || c.isDigit || c == '_'

/-- One attempted match of `\d\d:\d\d:\d\d` at the head of the input,
returning the rest after the match. -/
def matchTimestamp : List Char → Option (List Char)
  | a :: b :: c :: d :: e :: f :: g :: h :: rest =>
    if a.isDigit && b.isDigit && c == ':' && d.isDigit && e.isDigit && f == ':'
        && g.isDigit && h.isDigit then
      some rest
    else none
  | _ => none

/-- Exactly `n` digits at the head of the input. -/
def matchDigitsN : Nat → List Char → Option (List Char)
  | 0, rest => some rest
  | n + 1, c :: t => if c.isDigit then matchDigitsN n t else none
  | _ + 1, [] => none

/-- One candidate quantifier choice for `\d{1,2}\/\d{1,2}\/\d{2,4}`:
exactly `d1` digits, a slash, `d2` digits, a slash, `d3` digits. -/
def tryDateCombo (d1 d2 d3 : Nat) (s : List Char) : Option (List Char) :=
  match matchDigitsN d1 s with
  | none => none
  | some r1 =>
    match r1 with
    | '/' :: r2 =>
      (match matchDigitsN d2 r2 with
       | none => none
       | some r3 =>
         match r3 with
         | '/' :: r4 => matchDigitsN d3 r4
         | _ => none)
    | _ => none

/-- Greedy backtracking order of the three quantifiers of the slash-date
pattern (each quantifier tries its maximum first, leftmost outermost). -/
def dateSlashCombos : List (Nat × Nat × Nat) :=
  [(2, 2, 4), (2, 2, 3), (2, 2, 2), (2, 1, 4), (2, 1, 3), (2, 1, 2),
   (1, 2, 4), (1, 2, 3), (1, 2, 2), (1, 1, 4), (1, 1, 3), (1, 1, 2)]

/-- First quantifier choice that matches at the head of the input. -/
def matchDateSlashCombos : List (Nat × Nat × Nat) → List Char → Option (List Char)
  | [], _ => none
  | (d1, d2, d3) :: rest, s =>
    match tryDateCombo d1 d2 d3 s with
    | some r => some r
    | none => matchDateSlashCombos rest s

/-- One attempted match of `\d{1,2}\/\d{1,2}\/\d{2,4}` at the head. -/
def matchDateSlash (s : List Char) : Option (List Char) :=
  matchDateSlashCombos dateSlashCombos s

/-- One attempted match of `\d{4}-\d{2}-\d{2}` at the head. -/
def matchDateDash : List Char → Option (List Char)
  | a :: b :: c :: d :: e :: f :: g :: h :: i :: j :: rest =>
    if a.isDigit && b.isDigit && c.isDigit && d.isDigit && e == '-'
        && f.isDigit && g.isDigit && h == '-' && i.isDigit && j.isDigit then
      some rest
    else none
  | _ => none

/-- Case-insensitive literal match (`pat` given lowercase), returning the
rest after the match. -/
def matchCI (pat : List Char) (s : List Char) : Option (List Char) :=
  match pat, s with
  | [], rest => some rest
  | _ :: _, [] => none
  | p :: pt, c :: ct => if c.toLower == p then matchCI pt ct else none

/-- Is the character a double or single quote (the `["']` class). -/
def isQuote (c : Char) : Bool :=
  c == '"' || c == '\''

/-- Maximal run of non-quote characters (`[^"']+` is forced to this run:
a shorter run would leave a non-quote where the pattern requires a
quote, so the greedy match never backtracks here). -/
def takeNonQuotes : List Char → List Char × List Char
  | [] => ([], [])
  | c :: t =>
    if isQuote c then ([], c :: t)
    else
      let p := takeNonQuotes t
      (c :: p.1, p.2)

/-- One attempted match of `word[^"']+["'][^"']+["']` (case-insensitive
on the literal `word`) at the head of the input. -/
def matchTokenPattern (word : List Char) (s : List Char) : Option (List Char) :=
  match matchCI word s with
  | none => none
  | some r1 =>
    let p1 := takeNonQuotes r1
    if p1.1.isEmpty then none
    else
      match p1.2 with
      | _ :: r3 =>
        let p2 := takeNonQuotes r3
        if p2.1.isEmpty then none
        else
          match p2.2 with
          | _ :: r5 => some r5
          | [] => none
      | [] => none

/-- Global regex replacement: scan left to right, at each position emit
the replacement and continue after a match, else advance one character.
`fuel` bounds the scan; every step consumes at least one input character,
so `length + 1` fuel always suffices. -/
def replaceScan (m : List Char → Option (List Char)) (repl : List Char) :
    Nat → List Char → List Char
  | 0, s => s
  | _ + 1, [] => []
  | fuel + 1, c :: t =>
    match m (c :: t) with
    | some rest => repl ++ replaceScan m repl fuel rest
    | none => c :: replaceScan m repl fuel t

/-- `removeDynamicContent(data)`: the five sequential global
substitutions of the source (timestamps, slash dates, dash dates, csrf
tokens, session ids). -/
def removeDynamicContent (data : String) : String :=
  let s1 := replaceScan matchTimestamp "TIMESTAMP".data (data.data.length + 1) data.data
  let s2 := replaceScan matchDateSlash "DATE".data (s1.length + 1) s1
  let s3 := replaceScan matchDateDash "DATE".data (s2.length + 1) s2
  let s4 := replaceScan (matchTokenPattern "csrf".data) "CSRF_TOKEN".data (s3.length + 1) s3
  let s5 := replaceScan (matchTokenPattern "session".data) "SESSION_ID".data (s4.length + 1) s4
  String.mk s5

/-- Maximal run of word characters (`\w+`, nothing follows it in the
pattern, so the greedy run is the match). -/
def takeWordChars : List Char → List Char × List Char
  | [] => ([], [])
  | c :: t =>
    if isWordChar c then
      let p := takeWordChars t
      (c :: p.1, p.2)
    else ([], c :: t)

/-- One attempted match of `lead-\w+` at the head, returning the matched
identifier and the rest. -/
def matchLeadId : List Char → Option (String × List Char)
  | 'l' :: 'e' :: 'a' :: 'd' :: '-' :: rest =>
    let p := takeWordChars rest
    if p.1.isEmpty then none
    else some (String.mk ('l' :: 'e' :: 'a' :: 'd' :: '-' :: p.1), p.2)
  | _ => none

/-- Global scan collecting every `lead-\w+` match in order. -/
def scanIds : Nat → List Char → List String
  | 0, _ => []
  | _ + 1, [] => []
  | fuel + 1, c :: t =>
    match matchLeadId (c :: t) with
    | some (id, rest) => id :: scanIds fuel rest
    | none => scanIds fuel t

/-- `extractLeadIdentifiers(data)`: `data.match(/lead-\w+/g) || []`. -/
def extractLeadIdentifiers (data : String) : List String :=
  scanIds (data.data.length + 1) data.data

/-- Model of `new Date(t).toISOString()` for a clock reading `t` in
milliseconds: an injective textual rendering of the instant. -/
def isoTimestamp (t : Nat) : String :=
  toString t

/-- `detectLeadChangesFromStrings(previousData, currentData)`; `now` is
the wall-clock reading taken for the `detectedAt` stamps. -/
def detectLeadChangesFromStrings (previousData currentData : String) (now : Nat) : DiffResult :=
  let cleanPrevData := removeDynamicContent previousData
  let cleanCurrData := removeDynamicContent currentData
  let hasChanges := !(cleanPrevData == cleanCurrData)
  let prevLeadIds := extractLeadIdentifiers previousData
  let currLeadIds := extractLeadIdentifiers currentData
  let newLeadIds := currLeadIds.filter fun id => !(prevLeadIds.contains id)
  let newLeads : List Lead := newLeadIds.map fun id =>
    [("id", JVal.str id), ("detectedAt", JVal.str (isoTimestamp now))]
  { hasChanges := hasChanges && decide (0 < newLeads.length), newLeads := newLeads }

/-- `detectLeadChanges`: parsed-array mode when both stored parse results
are arrays (`Array.isArray`), else the string-comparison fallback. -/
def detectLeadChanges (previousData currentData : String)
    (previousArray currentArray : Option JVal) (now : Nat) : DiffResult :=
  match previousArray, currentArray with
  | some (JVal.arr p), some (JVal.arr c) => detectLeadChangesFromArrays p c
  | _, _ => detectLeadChangesFromStrings previousData currentData now

/-- One element of `newLeads.map(lead => lead.id || lead.uniqueKey)`:
`none` models `undefined` (neither property truthy nor present). -/
abbrev NotifKey : Type := Option JVal

/-- JS `a || b` on two property reads (the left value when truthy, the
right value otherwise). -/
def jsOr (a b : Option JVal) : Option JVal :=
  match a with
  | some v => if truthy v then some v else b
  | none => b

/-- The identity passed to the deduplicator for one lead:
`lead.id || lead.uniqueKey`. -/
def notifKeyOf (l : Lead) : NotifKey :=
  jsOr (getField l "id") (getField l "uniqueKey")

/-- `===`/SameValueZero equality of two notification identities, as used
by the membership test of the JS `Set`. -/
def notifKeyEq : NotifKey → NotifKey → Bool
  | some a, some b => beqJVal a b
  | none, none => true
  | _, _ => false

/-- `Set.prototype.add`: append unless an equal element is present. -/
def addNotifId (ids : List NotifKey) (id : NotifKey) : List NotifKey :=
  if ids.any fun j => notifKeyEq j id then ids else ids ++ [id]

/-- `leadIds.forEach(id => set.add(id))`. -/
def addAllNotifIds (ids newIds : List NotifKey) : List NotifKey :=
  newIds.foldl addNotifId ids

/-- The deduplicator's slice of `LeadDetector` state:
`lastNotificationTime` and `lastNotifiedLeadIds`. -/
structure NotifState where
  lastNotificationTime : Nat
  lastNotifiedLeadIds : List NotifKey

/-- `shouldSendNotification(leadIds)`, with `now` the `Date.now()`
reading; returns the decision and the updated notification state. -/
def shouldSendNotification (cfg : ChangeDetectionConfig) (now : Nat)
    (leadIds : List NotifKey) (s : NotifState) : Bool × NotifState :=
  if now - s.lastNotificationTime < cfg.deduplicationWindow then
    if leadIds.any fun id => s.lastNotifiedLeadIds.any (notifKeyEq id) then
      (false, s)
    else
      (true, { lastNotificationTime := now
               lastNotifiedLeadIds := addAllNotifIds s.lastNotifiedLeadIds leadIds })
  else
    (true, { lastNotificationTime := now
             lastNotifiedLeadIds := addAllNotifIds [] leadIds })

/-- Outcome the webhook transport produced for the single POST of
`sendWebhookNotification`: a response with a status code, or a socket
error. -/
inductive DeliveryOutcome where
  | response (statusCode : Nat)
  | transportError

/-- `sendWebhookNotification(data)` as observed by its awaiter: the
returned promise resolves to `statusCode in 2xx` on any response, and
rejects (modelled `Except.error`) on a transport error — the `try/catch`
inside the method only guards the synchronous promise construction, so a
rejection of the returned promise escapes to the caller. -/
def sendWebhookNotification : DeliveryOutcome → Except Unit Bool
  | .response statusCode => .ok (decide (200 ≤ statusCode) && decide (statusCode < 300))
  | .transportError => .error ()

/-- Outcome the leads-data transport produced for the single GET of
`fetchLeadsData`. -/
inductive FetchOutcome where
  | response (statusCode : Nat) (location : Option String) (body : String)
  | transportError

/-- The re-login trigger condition of `fetchLeadsData`:
`statusCode === 401 || statusCode === 403 || (location &&
location.includes('/login'))`. -/
def needsRelogin (statusCode : Nat) (location : Option String) : Bool :=
  statusCode == 401 || statusCode == 403 ||
    (match location with
     | some l => containsSub l "/login"
     | none => false)

/-- What `await fetchLeadsData()` yields to the poll loop: a value
(`null` on the auth branch, the body string on 2xx) or a thrown
rejection (non-2xx status or transport error). -/
inductive FetchResult where
  | value (s : Option String)
  | thrown

/-- `fetchLeadsData()` as observed by the poll loop, paired with the
number of `handleRelogin()` invocations it fired. -/
def fetchLeadsData : FetchOutcome → FetchResult × Nat
  | .response statusCode location body =>
    if needsRelogin statusCode location then (.value none, 1)
    else if statusCode < 200 || 300 ≤ statusCode then (.thrown, 0)
    else (.value (some body), 0)
  | .transportError => (.thrown, 0)

/-- The `LeadDetector` fields touched by one `pollLeadsData` cycle. -/
structure DetectorState where
  previousLeadsData : Option String
  previousLeadsArray : Option JVal
  retryCount : Nat
  lastNotificationTime : Nat
  lastNotifiedLeadIds : List NotifKey

/-- How the next `pollLeadsData` call is scheduled: after the fixed
polling interval, or after `getBackoffDelay(retryCount)`. -/
inductive Schedule where
  | pollingInterval
  | backoff (retryCount : Nat)
deriving DecidableEq

/-- Everything one `pollLeadsData` cycle did: the updated detector state,
how many times `handleRelogin` was invoked, how many webhook deliveries
were attempted, the new-lead batch the diff produced, and how the next
cycle was scheduled. -/
structure CycleResult where
  state : DetectorState
  reloginCalls : Nat
  deliveryAttempts : Nat
  batch : List Lead
  schedule : Schedule

/-- One `pollLeadsData()` cycle.  `f` is the transport outcome of the
fetch, `parsed` the result of `JSON.parse` on the body (`none` when the
body is not valid JSON), `now` the wall-clock reading of the cycle, `d`
the transport outcome the webhook POST would produce.  A thrown fetch or
a rejected delivery lands in the surrounding `catch`, which increments
`retryCount` and schedules the next poll with backoff. -/
def pollLeadsData (cfg : ChangeDetectionConfig) (s : DetectorState)
    (f : FetchOutcome) (parsed : Option JVal) (now : Nat)
    (d : DeliveryOutcome) : CycleResult :=
  match fetchLeadsData f with
  | (.thrown, r) =>
    { state := { s with retryCount := s.retryCount + 1 }
      reloginCalls := r, deliveryAttempts := 0, batch := []
      schedule := .backoff (s.retryCount + 1) }
  | (.value none, r) =>
    { state := { s with retryCount := s.retryCount + 1 }
      reloginCalls := r, deliveryAttempts := 0, batch := []
      schedule := .backoff (s.retryCount + 1) }
  | (.value (some body), r) =>
    if body == "" then
      { state := { s with retryCount := s.retryCount + 1 }
        reloginCalls := r, deliveryAttempts := 0, batch := []
        schedule := .backoff (s.retryCount + 1) }
    else
      match s.previousLeadsData with
      | none =>
        { state := { s with previousLeadsData := some body, previousLeadsArray := parsed }
          reloginCalls := r, deliveryAttempts := 0, batch := []
          schedule := .pollingInterval }
      | some prevData =>
        let diff := detectLeadChanges prevData body s.previousLeadsArray parsed now
        if diff.hasChanges && decide (cfg.minNewLeadsToNotify ≤ diff.newLeads.length) then
          let ids := diff.newLeads.map notifKeyOf
          let sd := shouldSendNotification cfg now ids
            ⟨s.lastNotificationTime, s.lastNotifiedLeadIds⟩
          if sd.1 then
            match sendWebhookNotification d with
            | .error _ =>
              { state := { s with
                  lastNotificationTime := sd.2.lastNotificationTime
                  lastNotifiedLeadIds := sd.2.lastNotifiedLeadIds
                  retryCount := s.retryCount + 1 }
                reloginCalls := r, deliveryAttempts := 1, batch := diff.newLeads
                schedule := .backoff (s.retryCount + 1) }
            | .ok _ =>
              { state := { previousLeadsData := some body, previousLeadsArray := parsed
                           retryCount := 0
                           lastNotificationTime := sd.2.lastNotificationTime
                           lastNotifiedLeadIds := sd.2.lastNotifiedLeadIds }
                reloginCalls := r, deliveryAttempts := 1, batch := diff.newLeads
                schedule := .pollingInterval }
          else
            { state := { previousLeadsData := some body, previousLeadsArray := parsed
                         retryCount := 0
                         lastNotificationTime := sd.2.lastNotificationTime
                         lastNotifiedLeadIds := sd.2.lastNotifiedLeadIds }
              reloginCalls := r, deliveryAttempts := 0, batch := diff.newLeads
              schedule := .pollingInterval }
        else if diff.hasChanges then
          { state := { s with previousLeadsData := some body
                              previousLeadsArray := parsed, retryCount := 0 }
            reloginCalls := r, deliveryAttempts := 0, batch := diff.newLeads
            schedule := .pollingInterval }
        else
          { state := { s with retryCount := 0 }
            reloginCalls := r, deliveryAttempts := 0, batch := diff.newLeads
            schedule := .pollingInterval }

/-- The jitter-free part of `getBackoffDelay(retryCount)`:
`min(baseBackoffDelay * 2^retryCount, maxBackoffDelay)`. -/
def getBackoffDelayBase (t : TimingConfig) (retryCount : Nat) : Nat :=
  min (t.baseBackoffDelay * 2 ^ retryCount) t.maxBackoffDelay

/-- `getBackoffDelay(retryCount)` with the `Math.random()` draw made an
explicit parameter `rand` (a real in `[0, 1)`): the capped exponential
delay plus `rand * 1000` jitter. -/
def getBackoffDelay (t : TimingConfig) (retryCount : Nat) (rand : ℚ) : ℚ :=
  (getBackoffDelayBase t retryCount : ℚ) + rand * 1000

/-! Auxiliary lemmas about the embedded operations. -/

mutual
theorem beqJVal_refl : (v : JVal) → beqJVal v v = true
  | .str s => by simp [beqJVal]
  | .obj fs => by simpa [beqJVal] using beqFields_refl fs
  | .arr xs => by simpa [beqJVal] using beqElems_refl xs

theorem beqFields_refl : (l : List (String × JVal)) → beqFields l l = true
  | [] => rfl
  | (k, v) :: t => by
    simp [beqFields, beqJVal_refl v, beqFields_refl t]

theorem beqElems_refl : (l : List JVal) → beqElems l l = true
  | [] => rfl
  | v :: t => by
    simp [beqElems, beqJVal_refl v, beqElems_refl t]
end

theorem optEq_refl (o : Option JVal) : optEq o o = true := by
  cases o with
  | none => rfl
  | some v => simpa [optEq] using beqJVal_refl v

theorem areLeadsEqual_self (l : Lead) : areLeadsEqual l l = true := by
  unfold areLeadsEqual
  split
  · exact optEq_refl _
  · split
    · exact optEq_refl _
    · refine List.all_eq_true.2 fun f _ => ?_
      split
      · rfl
      · exact optEq_refl _

theorem getField_map_overwrite (l : Lead) (f g : String) (v : JVal) (h : g ≠ f) :
    getField (l.map fun kv => if kv.1 == f then (kv.1, v) else kv) g = getField l g := by
  induction l with
  | nil => rfl
  | cons kv t ih =>
    obtain ⟨k, w⟩ := kv
    simp only [List.map_cons]
    by_cases hk : k = f
    · subst hk
      rw [if_pos (by simp : ((k, w).1 == k) = true)]
      have hkg : (k == g) = false := by
        simp only [beq_eq_false_iff_ne]
        exact fun e => h e.symm
      simp only [beq_iff_eq] at ih
      simp [getField, hkg, ih]
    · rw [if_neg (by simp [hk] : ¬ ((k, w).1 == f) = true)]
      simp only [beq_iff_eq] at ih
      simp [getField, ih]

theorem getField_append_ne (l : Lead) (f g : String) (v : JVal) (h : g ≠ f) :
    getField (l ++ [(f, v)]) g = getField l g := by
  induction l with
  | nil =>
    have hfg : (f == g) = false := by
      simp only [beq_eq_false_iff_ne]
      exact fun e => h e.symm
    simp [getField, hfg]
  | cons kv t ih =>
    obtain ⟨k, w⟩ := kv
    simp [getField, ih]

theorem getField_setField_ne (l : Lead) (f g : String) (v : JVal) (h : g ≠ f) :
    getField (setField l f v) g = getField l g := by
  unfold setField
  split
  · exact getField_map_overwrite l f g v h
  · exact getField_append_ne l f g v h

theorem all_congrL {α : Type} {xs : List α} {p q : α → Bool}
    (hpq : ∀ x ∈ xs, p x = q x) : xs.all p = xs.all q := by
  induction xs with
  | nil => rfl
  | cons y ys ih =>
    have hy : p y = q y := hpq y (List.mem_cons_self y ys)
    have hys : ys.all p = ys.all q := ih fun z hz => hpq z (List.mem_cons_of_mem y hz)
    simp only [List.all_cons, hy, hys]

theorem areLeadsEqual_congr_right (l l2 l2' : Lead)
    (h : ∀ g, g ∈ "id" :: "uniqueKey" :: fieldsToCompare → getField l2 g = getField l2' g) :
    areLeadsEqual l l2 = areLeadsEqual l l2' := by
  have hid := h "id" (by simp)
  have huk := h "uniqueKey" (by simp)
  unfold areLeadsEqual
  rw [show truthyField l2 "id" = truthyField l2' "id" by simp [truthyField, hid],
    show truthyField l2 "uniqueKey" = truthyField l2' "uniqueKey" by simp [truthyField, huk],
    hid, huk]
  have hall : ∀ fl : Lead,
      (fieldsToCompare.all fun field =>
        if !(hasOwn l field) || !(hasOwn l2 field) then true
        else optEq (getField l field) (getField l2 field)) =
      (fieldsToCompare.all fun field =>
        if !(hasOwn l field) || !(hasOwn l2' field) then true
        else optEq (getField l field) (getField l2' field)) := by
    intro _
    refine all_congrL fun g hg => ?_
    have hgf := h g (List.mem_cons_of_mem _ (List.mem_cons_of_mem _ hg))
    rw [show hasOwn l2 g = hasOwn l2' g by simp [hasOwn, hgf], hgf]
  rw [hall l]

mutual
theorem beqJVal_eq : (a b : JVal) → beqJVal a b = true → a = b
  | .str _, .str _, h => by
    have hs := (by simpa [beqJVal] using h : _ = _)
    rw [hs]
  | .obj fs, .obj gs, h => by
    rw [beqFields_eq fs gs (by simpa [beqJVal] using h)]
  | .arr xs, .arr ys, h => by
    rw [beqElems_eq xs ys (by simpa [beqJVal] using h)]
  | .str _, .obj _, h => by simp [beqJVal] at h
  | .str _, .arr _, h => by simp [beqJVal] at h
  | .obj _, .str _, h => by simp [beqJVal] at h
  | .obj _, .arr _, h => by simp [beqJVal] at h
  | .arr _, .str _, h => by simp [beqJVal] at h
  | .arr _, .obj _, h => by simp [beqJVal] at h

theorem beqFields_eq : (l m : List (String × JVal)) → beqFields l m = true → l = m
  | [], [], _ => rfl
  | (k, v) :: t, (k2, v2) :: t2, h => by
    have h3 := (by simpa [beqFields, Bool.and_eq_true] using h :
      ((k == k2) = true ∧ beqJVal v v2 = true) ∧ beqFields t t2 = true)
    have hk : k = k2 := by simpa using h3.1.1
    rw [hk, beqJVal_eq v v2 h3.1.2, beqFields_eq t t2 h3.2]
  | [], _ :: _, h => by simp [beqFields] at h
  | _ :: _, [], h => by simp [beqFields] at h

theorem beqElems_eq : (l m : List JVal) → beqElems l m = true → l = m
  | [], [], _ => rfl
  | v :: t, v2 :: t2, h => by
    have h3 := (by simpa [beqElems, Bool.and_eq_true] using h :
      beqJVal v v2 = true ∧ beqElems t t2 = true)
    rw [beqJVal_eq v v2 h3.1, beqElems_eq t t2 h3.2]
  | [], _ :: _, h => by simp [beqElems] at h
  | _ :: _, [], h => by simp [beqElems] at h
end

theorem notifKeyEq_iff (a b : NotifKey) : notifKeyEq a b = true ↔ a = b := by
  cases a with
  | none =>
    cases b with
    | none => simp [notifKeyEq]
    | some w => simp [notifKeyEq]
  | some v =>
    cases b with
    | none => simp [notifKeyEq]
    | some w =>
      constructor
      · intro h
        rw [beqJVal_eq v w (by simpa [notifKeyEq] using h)]
      · intro h
        cases h
        simpa [notifKeyEq] using beqJVal_refl v

theorem mem_addNotifId_self (base : List NotifKey) (i : NotifKey) :
    i ∈ addNotifId base i := by
  unfold addNotifId
  split
  · next hfound =>
    obtain ⟨j, hj, hje⟩ := List.any_eq_true.1 hfound
    exact (notifKeyEq_iff j i).1 hje ▸ hj
  · exact List.mem_append_right _ (List.mem_singleton.2 rfl)

theorem mem_addNotifId_of_mem (base : List NotifKey) (i id : NotifKey)
    (h : id ∈ base) : id ∈ addNotifId base i := by
  unfold addNotifId
  split
  · exact h
  · exact List.mem_append_left _ h

theorem mem_addAllNotifIds_of_mem (ids : List NotifKey) (base : List NotifKey)
    (id : NotifKey) (h : id ∈ base) : id ∈ addAllNotifIds base ids := by
  induction ids generalizing base with
  | nil => exact h
  | cons i t ih => exact ih (addNotifId base i) (mem_addNotifId_of_mem base i id h)

theorem mem_addAllNotifIds (ids : List NotifKey) (base : List NotifKey)
    (id : NotifKey) (h : id ∈ ids) : id ∈ addAllNotifIds base ids := by
  induction ids generalizing base with
  | nil => cases h
  | cons i t ih =>
    rcases List.mem_cons.1 h with h1 | h2
    · subst h1
      exact mem_addAllNotifIds_of_mem t (addNotifId base id) id (mem_addNotifId_self base id)
    · exact ih (addNotifId base i) h2

theorem getField_eq_none_of_not_hasOwn (l : Lead) (f : String)
    (h : hasOwn l f = false) : getField l f = none := by
  unfold hasOwn at h
  cases hg : getField l f with
  | none => rfl
  | some v => rw [hg] at h; simp at h

theorem getField_append_self (l : Lead) (f : String) (v : JVal)
    (h : getField l f = none) : getField (l ++ [(f, v)]) f = some v := by
  induction l with
  | nil => simp [getField]
  | cons kv t ih =>
    obtain ⟨k, w⟩ := kv
    by_cases hk : k = f
    · subst hk
      simp [getField] at h
    · have hkf : (k == f) = false := by simp [hk]
      simp only [List.cons_append, getField, hkf]
      exact ih (by simpa [getField, hkf] using h)

theorem getField_setField_self (l : Lead) (f : String) (v : JVal) :
    getField (setField l f v) f = some v := by
  unfold setField
  split
  · next hown =>
    induction l with
    | nil => simp [hasOwn, getField] at hown
    | cons kv t ih =>
      obtain ⟨k, w⟩ := kv
      by_cases hk : k = f
      · subst hk
        rw [List.map_cons, if_pos (by simp : ((k, w).1 == k) = true)]
        simp [getField]
      · rw [List.map_cons, if_neg (by simp [hk] : ¬ ((k, w).1 == f) = true)]
        have hown2 : hasOwn t f = true := by
          simpa [hasOwn, getField, hk] using hown
        have hkf : (k == f) = false := by simp [hk]
        simp only [getField, hkf]
        exact ih hown2
  · next hown =>
    exact getField_append_self l f v
      (getField_eq_none_of_not_hasOwn l f (by simpa using hown))

/-- A raw payload object that carries no `id` key and none of the seven
key fields of `fieldsToCompare`. -/
def rawBare (l : Lead) : Bool :=
  !(hasOwn l "id") && (fieldsToCompare.all fun f => !(hasOwn l f))

/-- A lead record with no truthy `id`, no truthy `uniqueKey`, and none
of the seven compared fields (the shape a `rawBare` object has after
extraction). -/
def isBareLead (l : Lead) : Bool :=
  !(truthyField l "id") && !(truthyField l "uniqueKey") &&
    (fieldsToCompare.all fun f => !(hasOwn l f))

theorem rawBare_fields (l : Lead) (h : rawBare l = true) :
    getField l "id" = none ∧ ∀ f ∈ fieldsToCompare, getField l f = none := by
  simp only [rawBare, Bool.and_eq_true, Bool.not_eq_true', List.all_eq_true] at h
  exact ⟨getField_eq_none_of_not_hasOwn l "id" h.1,
    fun f hf => getField_eq_none_of_not_hasOwn l f (h.2 f hf)⟩

theorem createUniqueKey_of_rawBare (l : Lead) (h : rawBare l = true) :
    createUniqueKey l = "" := by
  obtain ⟨-, h7⟩ := rawBare_fields l h
  have hk : ∀ f ∈ fieldsToCompare,
      (match getField l f with
       | some v => if truthy v then some (jvalToString v) else none
       | none => none) = (none : Option String) := by
    intro f hf
    rw [h7 f hf]
  unfold createUniqueKey
  rw [List.filterMap_eq_nil_iff.2 ?_]
  · rfl
  · intro f hf
    exact hk f hf

theorem extractItem_of_rawBare (l : Lead) (h : rawBare l = true) :
    extractItem (.obj l) = setField l "uniqueKey" (JVal.str "") := by
  obtain ⟨hid, -⟩ := rawBare_fields l h
  have he : extractItem (.obj l) =
      if truthyField l "id" then l
      else setField l "uniqueKey" (JVal.str (createUniqueKey l)) := rfl
  rw [he, show truthyField l "id" = false by simp [truthyField, hid],
    createUniqueKey_of_rawBare l h]
  simp

theorem isBareLead_extract (l : Lead) (h : rawBare l = true) :
    isBareLead (extractItem (.obj l)) = true := by
  obtain ⟨hid, h7⟩ := rawBare_fields l h
  rw [extractItem_of_rawBare l h]
  have hne : ∀ g : String, g ≠ "uniqueKey" →
      getField (setField l "uniqueKey" (JVal.str "")) g = getField l g :=
    fun g hg => getField_setField_ne l "uniqueKey" g (JVal.str "") hg
  simp only [isBareLead, Bool.and_eq_true, Bool.not_eq_true', List.all_eq_true]
  refine ⟨⟨?_, ?_⟩, ?_⟩
  · rw [show truthyField (setField l "uniqueKey" (JVal.str "")) "id" =
      truthyField l "id" by simp [truthyField, hne "id" (by decide)]]
    simp [truthyField, hid]
  · rw [show truthyField (setField l "uniqueKey" (JVal.str "")) "uniqueKey" =
      truthy (JVal.str "") by
        simp [truthyField, getField_setField_self l "uniqueKey" (JVal.str "")]]
    rfl
  · intro f hf
    have hf2 : f ≠ "uniqueKey" := by
      intro e
      subst e
      simp [fieldsToCompare] at hf
    simp [hasOwn, hne f hf2, h7 f hf]

theorem areLeadsEqual_of_bare (l1 l2 : Lead) (h1 : isBareLead l1 = true)
    (h2 : isBareLead l2 = true) : areLeadsEqual l1 l2 = true := by
  simp only [isBareLead, Bool.and_eq_true, Bool.not_eq_true', List.all_eq_true] at h1 h2
  unfold areLeadsEqual
  rw [if_neg (by simp [h1.1.1]), if_neg (by simp [h1.1.2])]
  refine List.all_eq_true.2 fun f hf => ?_
  rw [if_pos]
  simp [h1.2 f hf]

theorem bare_never_new (prev curr : List JVal)
    (h : ∃ q ∈ extractLeadObjects prev, isBareLead q = true) :
    (detectLeadChangesFromArrays prev curr).newLeads.all
      (fun l => !(isBareLead l)) = true := by
  obtain ⟨q, hq, hbare⟩ := h
  refine List.all_eq_true.2 fun l hl => ?_
  simp only [detectLeadChangesFromArrays] at hl
  obtain ⟨-, hcond⟩ := List.mem_filter.1 hl
  by_cases hbl : isBareLead l = true
  · exfalso
    have hany : ((extractLeadObjects prev).any fun prevLead =>
        areLeadsEqual prevLead l) = true :=
      List.any_eq_true.2 ⟨q, hq, areLeadsEqual_of_bare q l hbare hbl⟩
    rw [hany] at hcond
    simp at hcond
  · simp [Bool.not_eq_true] at hbl
    simp [hbl]

/-! Claim theorems. -/

/-- Claim C2: `shouldSendNotification` implements the specified dedup
algorithm.  When the window has fully elapsed the recently-notified set
is cleared and the call is allowed; when the window is still active and
any incoming identity is already present, the call returns false and the
state is untouched; every call returning true stamps
`lastNotificationTime := now` and records every incoming identity; and
with the 5000 ms window, two calls carrying "A" 100 ms apart return true
then false, while the same calls 6000 ms apart both return true. -/
theorem shouldSendNotification_spec :
    (∀ (cfg : ChangeDetectionConfig) (now : Nat) (ids : List NotifKey) (s : NotifState),
      cfg.deduplicationWindow ≤ now - s.lastNotificationTime →
      shouldSendNotification cfg now ids s = (true, ⟨now, addAllNotifIds [] ids⟩)) ∧
    (∀ (cfg : ChangeDetectionConfig) (now : Nat) (ids : List NotifKey) (s : NotifState),
      now - s.lastNotificationTime < cfg.deduplicationWindow →
      (ids.any fun id => s.lastNotifiedLeadIds.any (notifKeyEq id)) = true →
      shouldSendNotification cfg now ids s = (false, s)) ∧
    (∀ (cfg : ChangeDetectionConfig) (now : Nat) (ids : List NotifKey) (s : NotifState),
      (shouldSendNotification cfg now ids s).1 = true →
      (shouldSendNotification cfg now ids s).2.lastNotificationTime = now ∧
      ∀ id ∈ ids, id ∈ (shouldSendNotification cfg now ids s).2.lastNotifiedLeadIds) ∧
    ((shouldSendNotification CONFIG_changeDetection 100000
        [some (JVal.str "A")] ⟨0, []⟩).1 = true ∧
      (shouldSendNotification CONFIG_changeDetection 100100 [some (JVal.str "A")]
        (shouldSendNotification CONFIG_changeDetection 100000
          [some (JVal.str "A")] ⟨0, []⟩).2).1 = false ∧
      (shouldSendNotification CONFIG_changeDetection 106000 [some (JVal.str "A")]
        (shouldSendNotification CONFIG_changeDetection 100000
          [some (JVal.str "A")] ⟨0, []⟩).2).1 = true) := by
  refine ⟨?_, ?_, ?_, by decide, by decide, by decide⟩
  · intro cfg now ids s h
    unfold shouldSendNotification
    rw [if_neg (by omega)]
  · intro cfg now ids s h hover
    unfold shouldSendNotification
    rw [if_pos h, if_pos hover]
  · intro cfg now ids s h
    unfold shouldSendNotification at h ⊢
    by_cases hc : now - s.lastNotificationTime < cfg.deduplicationWindow
    · rw [if_pos hc] at h ⊢
      by_cases hov : (ids.any fun id => s.lastNotifiedLeadIds.any (notifKeyEq id)) = true
      · rw [if_pos hov] at h
        simp at h
      · rw [if_neg hov] at h ⊢
        exact ⟨rfl, fun id hid => mem_addAllNotifIds ids _ id hid⟩
    · rw [if_neg hc] at h ⊢
      exact ⟨rfl, fun id hid => mem_addAllNotifIds ids _ id hid⟩

/-- Claim C2 witness: the general clauses of
`shouldSendNotification_spec` evaluated at concrete inputs. -/
theorem shouldSendNotification_spec_witness :
    shouldSendNotification CONFIG_changeDetection 9000 [some (JVal.str "A")] ⟨0, []⟩ =
      (true, ⟨9000, [some (JVal.str "A")]⟩) ∧
    shouldSendNotification CONFIG_changeDetection 9100 [some (JVal.str "A")]
      ⟨9000, [some (JVal.str "A")]⟩ = (false, ⟨9000, [some (JVal.str "A")]⟩) ∧
    (some (JVal.str "A") ∈
      (shouldSendNotification CONFIG_changeDetection 9000
        [some (JVal.str "A")] ⟨0, []⟩).2.lastNotifiedLeadIds) := by
  refine ⟨?_, ?_, ?_⟩
  · have h := shouldSendNotification_spec.1 CONFIG_changeDetection 9000
      [some (JVal.str "A")] ⟨0, []⟩ (by decide)
    rw [h]
    rfl
  · exact shouldSendNotification_spec.2.1 CONFIG_changeDetection 9100
      [some (JVal.str "A")] ⟨9000, [some (JVal.str "A")]⟩ (by decide) (by decide)
  · exact (shouldSendNotification_spec.2.2.1 CONFIG_changeDetection 9000
      [some (JVal.str "A")] ⟨0, []⟩ (by decide)).2 _ (List.mem_singleton.2 rfl)

/-- Claim C3 (code defect): the webhook delivery resolves to true exactly
on a 2xx status and to false on any other status, and it performs a
single POST; but on a transport error the promise returned by
`sendWebhookNotification` rejects — the method's own `try/catch` only
guards the synchronous promise construction — so the error escapes to
the awaiter instead of yielding `ok = false`. -/
theorem sendWebhookNotification_outcomes :
    sendWebhookNotification (.response 200) = .ok true ∧
    sendWebhookNotification (.response 204) = .ok true ∧
    sendWebhookNotification (.response 299) = .ok true ∧
    sendWebhookNotification (.response 199) = .ok false ∧
    sendWebhookNotification (.response 300) = .ok false ∧
    sendWebhookNotification (.response 500) = .ok false ∧
    sendWebhookNotification .transportError = .error () :=
  ⟨rfl, rfl, rfl, rfl, rfl, rfl, rfl⟩

/-- Claim C4 counterexample: the text-fallback diff stamps each new lead
with the wall-clock `detectedAt`, so two runs of the very same
`(baseline, current)` pair at clock readings 0 and 1 produce different
batches — the batches are not identical, refuting the claim for the
text-fallback mode. -/
theorem detectLeadChangesFromStrings_not_time_invariant :
    detectLeadChangesFromStrings "" "lead-a" 0 ≠
      detectLeadChangesFromStrings "" "lead-a" 1 := by
  intro h
  have h2 := congrArg
    (fun r => r.newLeads.map fun l => (getField l "detectedAt").map jvalToString) h
  have h3 : ([some "0"] : List (Option String)) = [some "1"] := h2
  exact absurd h3 (by decide)

/-- Claim C4 (amended): the parsed-array diff is a pure function of its
two inputs, so re-running it yields an identical batch; the text-fallback
diff re-run at the same clock reading also yields an identical batch, and
re-runs at any two clock readings agree on the `hasChanges` flag and on
the identity (`id` field) of every batch entry — only the `detectedAt`
stamp follows the clock. -/
theorem detectLeadChanges_idempotent :
    (∀ p c : List JVal, detectLeadChangesFromArrays p c = detectLeadChangesFromArrays p c) ∧
    (∀ (prev curr : String) (t : Nat),
      detectLeadChangesFromStrings prev curr t = detectLeadChangesFromStrings prev curr t) ∧
    (∀ (prev curr : String) (t1 t2 : Nat),
      (detectLeadChangesFromStrings prev curr t1).hasChanges =
        (detectLeadChangesFromStrings prev curr t2).hasChanges ∧
      (detectLeadChangesFromStrings prev curr t1).newLeads.map (fun l => getField l "id") =
        (detectLeadChangesFromStrings prev curr t2).newLeads.map (fun l => getField l "id")) := by
  refine ⟨fun p c => rfl, fun prev curr t => rfl, fun prev curr t1 t2 => ⟨?_, ?_⟩⟩
  · simp [detectLeadChangesFromStrings]
  · simp only [detectLeadChangesFromStrings, List.map_map]
    congr 1

/-- Claim C5 counterexample: `areLeadsEqual` never consults the
configured `ignoreFields`.  With `ignoreFields = ["name"]`, changing only
the field "name" — a member of that set — flips `areLeadsEqual` to
false, so the universally quantified claim fails. -/
theorem areLeadsEqual_ignores_config :
    ("name" ∈ (["name"] : List String)) ∧
    setField [("name", JVal.str "A")] "name" (JVal.str "B") = [("name", JVal.str "B")] ∧
    areLeadsEqual [("name", JVal.str "A")] [("name", JVal.str "B")] = false :=
  ⟨by decide, rfl, rfl⟩

/-- Claim C5 (amended): `areLeadsEqual` compares only `id`, `uniqueKey`
and the fixed field list `fieldsToCompare`; changing a field outside
those never makes it false.  Every member of the default `ignoreFields`
configuration lies outside that fixed set — which is why the documented
Bob scenario (same name and location, different `timestamp`) produces an
empty batch — but the configuration itself is never read by the
comparison. -/
theorem areLeadsEqual_untracked_fields :
    (∀ (l : Lead) (f : String) (v : JVal),
      ¬ f ∈ ("id" :: "uniqueKey" :: fieldsToCompare) →
      areLeadsEqual l (setField l f v) = true) ∧
    (CONFIG_changeDetection.ignoreFields.all
      (fun f => !(("id" :: "uniqueKey" :: fieldsToCompare).contains f)) = true) ∧
    (detectLeadChangesFromArrays
      [JVal.obj [("name", JVal.str "Bob"), ("location", JVal.str "X")]]
      [JVal.obj [("name", JVal.str "Bob"), ("location", JVal.str "X"),
        ("timestamp", JVal.str "2025-01-01")]] = ⟨false, []⟩) := by
  refine ⟨?_, by decide, rfl⟩
  intro l f v hf
  have h : ∀ g, g ∈ "id" :: "uniqueKey" :: fieldsToCompare →
      getField (setField l f v) g = getField l g :=
    fun g hg => getField_setField_ne l f g v (fun e => hf (e ▸ hg))
  rw [areLeadsEqual_congr_right l (setField l f v) l h]
  exact areLeadsEqual_self l

/-- Claim C5 witness: changing only the default ignored field
"timestamp" keeps `areLeadsEqual` true at a concrete lead. -/
theorem areLeadsEqual_untracked_fields_witness :
    ¬ ("timestamp" ∈ ("id" :: "uniqueKey" :: fieldsToCompare)) ∧
    areLeadsEqual [("name", JVal.str "Bob")]
      (setField [("name", JVal.str "Bob")] "timestamp" (JVal.str "9")) = true :=
  ⟨by decide, areLeadsEqual_untracked_fields.1 [("name", JVal.str "Bob")] "timestamp"
    (JVal.str "9") (by decide)⟩

/-- Claim C6: on the first poll ever (`previousLeadsData === null`), a
successful fetch of any non-empty snapshot produces an empty batch,
attempts no notification, and simply stores the snapshot (raw and
parsed) as the new baseline, scheduling the next poll at the fixed
interval. -/
theorem pollLeadsData_first_poll (cfg : ChangeDetectionConfig) (s : DetectorState)
    (st : Nat) (body : String) (parsed : Option JVal) (now : Nat) (d : DeliveryOutcome)
    (hprev : s.previousLeadsData = none) (h2 : 200 ≤ st) (h3 : st < 300)
    (hbody : ¬ body = "") :
    pollLeadsData cfg s (.response st none body) parsed now d =
      { state := { s with previousLeadsData := some body, previousLeadsArray := parsed }
        reloginCalls := 0, deliveryAttempts := 0, batch := []
        schedule := .pollingInterval } := by
  have hrl : needsRelogin st none = false := by
    simp only [needsRelogin, Bool.or_false, Bool.or_eq_false_iff, beq_eq_false_iff_ne]
    omega
  have hf : fetchLeadsData (.response st none body) = (.value (some body), 0) := by
    simp only [fetchLeadsData]
    rw [hrl]
    simp only [Bool.false_eq_true, if_false]
    rw [if_neg (by
      simp only [Bool.or_eq_true, decide_eq_true_eq, not_or]
      omega)]
  simp only [pollLeadsData, hf]
  rw [show (body == "") = false by simpa using hbody]
  simp only [Bool.false_eq_true, if_false]
  rw [hprev]

/-- Claim C6 witness: the first-poll rule at a concrete snapshot. -/
theorem pollLeadsData_first_poll_witness :
    pollLeadsData CONFIG_changeDetection ⟨none, none, 0, 0, []⟩
      (.response 200 none "snapshot") none 0 (.response 200) =
      { state := ⟨some "snapshot", none, 0, 0, []⟩
        reloginCalls := 0, deliveryAttempts := 0, batch := []
        schedule := .pollingInterval } :=
  pollLeadsData_first_poll CONFIG_changeDetection ⟨none, none, 0, 0, []⟩
    200 "snapshot" none 0 (.response 200) rfl (by decide) (by decide) (by decide)

/-- Claim C7: ignoring jitter, `getBackoffDelay` computes
`min(baseBackoffDelay * 2^retryCount, maxBackoffDelay)`; the jitter-free
delay is monotonically non-decreasing in the retry count and, once the
cap is reached, stays exactly at the cap; the added jitter lies in
`[0, 1000)`. -/
theorem getBackoffDelay_spec :
    (∀ (t : TimingConfig) (n : Nat),
      getBackoffDelayBase t n ≤ getBackoffDelayBase t (n + 1)) ∧
    (∀ (t : TimingConfig) (n m : Nat),
      t.maxBackoffDelay ≤ t.baseBackoffDelay * 2 ^ n → n ≤ m →
      getBackoffDelayBase t m = t.maxBackoffDelay) ∧
    (∀ (t : TimingConfig) (n : Nat) (r : ℚ), 0 ≤ r → r < 1 →
      0 ≤ r * 1000 ∧ r * 1000 < 1000 ∧
      getBackoffDelay t n r = (getBackoffDelayBase t n : ℚ) + r * 1000) := by
  refine ⟨?_, ?_, ?_⟩
  · intro t n
    refine min_le_min (Nat.mul_le_mul_left _ ?_) le_rfl
    exact Nat.pow_le_pow_right (by norm_num) (Nat.le_succ n)
  · intro t n m hcap hnm
    have hmono : t.baseBackoffDelay * 2 ^ n ≤ t.baseBackoffDelay * 2 ^ m :=
      Nat.mul_le_mul_left _ (Nat.pow_le_pow_right (by norm_num) hnm)
    exact min_eq_right (le_trans hcap hmono)
  · intro t n r h0 h1
    refine ⟨by positivity, ?_, rfl⟩
    nlinarith

/-- Claim C7 witness: the backoff clauses at the configured timing
(base 1000 ms, cap 30000 ms) and concrete retry counts. -/
theorem getBackoffDelay_spec_witness :
    getBackoffDelayBase CONFIG_timing 3 ≤ getBackoffDelayBase CONFIG_timing 4 ∧
    getBackoffDelayBase CONFIG_timing 7 = CONFIG_timing.maxBackoffDelay ∧
    (0 : ℚ) ≤ (1 / 2 : ℚ) * 1000 ∧ (1 / 2 : ℚ) * 1000 < 1000 ∧
    getBackoffDelay CONFIG_timing 3 (1 / 2) =
      (getBackoffDelayBase CONFIG_timing 3 : ℚ) + (1 / 2 : ℚ) * 1000 := by
  have h1 := getBackoffDelay_spec.1 CONFIG_timing 3
  have h2 := getBackoffDelay_spec.2.1 CONFIG_timing 5 7 (by decide) (by decide)
  have h3 := getBackoffDelay_spec.2.2 CONFIG_timing 3 (1 / 2) (by norm_num) (by norm_num)
  exact ⟨h1, h2, h3.1, h3.2.1, h3.2.2⟩

/-- Claim C8: when the fetch response carries status 401 or 403, or a
redirect whose location contains "/login", the cycle invokes the
re-login hook exactly once, increments `retryCount` by one, attempts no
delivery, and schedules the next poll with backoff. -/
theorem pollLeadsData_auth_failure (cfg : ChangeDetectionConfig) (s : DetectorState)
    (st : Nat) (loc : Option String) (body : String) (parsed : Option JVal)
    (now : Nat) (d : DeliveryOutcome)
    (h : st = 401 ∨ st = 403 ∨ ∃ l, loc = some l ∧ containsSub l "/login" = true) :
    pollLeadsData cfg s (.response st loc body) parsed now d =
      { state := { s with retryCount := s.retryCount + 1 }
        reloginCalls := 1, deliveryAttempts := 0, batch := []
        schedule := .backoff (s.retryCount + 1) } := by
  have hrl : needsRelogin st loc = true := by
    unfold needsRelogin
    rcases h with h | h | ⟨l, hl, hc⟩
    · subst h; rfl
    · subst h; rfl
    · subst hl
      simp [hc]
  have hf : fetchLeadsData (.response st loc body) = (.value none, 1) := by
    simp only [fetchLeadsData]
    rw [hrl]
    rfl
  simp only [pollLeadsData, hf]

/-- Claim C8 witness: a 401 response at a concrete state. -/
theorem pollLeadsData_auth_failure_witness :
    pollLeadsData CONFIG_changeDetection ⟨some "old", none, 2, 0, []⟩
      (.response 401 none "") none 0 (.response 200) =
      { state := ⟨some "old", none, 3, 0, []⟩
        reloginCalls := 1, deliveryAttempts := 0, batch := []
        schedule := .backoff 3 } :=
  pollLeadsData_auth_failure CONFIG_changeDetection ⟨some "old", none, 2, 0, []⟩
    401 none "" none 0 (.response 200) (Or.inl rfl)

/-- Claim C9 (implicit): a fetch that succeeds with a 2xx status but an
empty body fails the `if (!leadsData)` guard and is handled as a fetch
failure: `retryCount` is incremented, the next poll is scheduled with
backoff, no relogin and no delivery happen, and the stored baseline and
notification state are left unchanged — the empty success does not reset
the failure counter. -/
theorem pollLeadsData_empty_body (cfg : ChangeDetectionConfig) (s : DetectorState)
    (st : Nat) (parsed : Option JVal) (now : Nat) (d : DeliveryOutcome)
    (h2 : 200 ≤ st) (h3 : st < 300) :
    pollLeadsData cfg s (.response st none "") parsed now d =
      { state := { s with retryCount := s.retryCount + 1 }
        reloginCalls := 0, deliveryAttempts := 0, batch := []
        schedule := .backoff (s.retryCount + 1) } := by
  have hrl : needsRelogin st none = false := by
    simp only [needsRelogin, Bool.or_false, Bool.or_eq_false_iff, beq_eq_false_iff_ne]
    omega
  have hf : fetchLeadsData (.response st none "") = (.value (some ""), 0) := by
    simp only [fetchLeadsData]
    rw [hrl]
    simp only [Bool.false_eq_true, if_false]
    rw [if_neg (by
      simp only [Bool.or_eq_true, decide_eq_true_eq, not_or]
      omega)]
  simp only [pollLeadsData, hf]
  rfl

/-- Claim C9 witness: a 200 response with empty body at a concrete
state. -/
theorem pollLeadsData_empty_body_witness :
    pollLeadsData CONFIG_changeDetection ⟨some "old", none, 1, 77, [none]⟩
      (.response 200 none "") none 5 (.response 200) =
      { state := ⟨some "old", none, 2, 77, [none]⟩
        reloginCalls := 0, deliveryAttempts := 0, batch := []
        schedule := .backoff 2 } :=
  pollLeadsData_empty_body CONFIG_changeDetection ⟨some "old", none, 1, 77, [none]⟩
    200 none 5 (.response 200) (by decide) (by decide)

/-- Claim C10 (implicit): a payload object carrying neither an `id` key
nor any of the seven key fields gets the empty string as its derived
`uniqueKey`; after extraction such a record is "bare" (no truthy id, no
truthy uniqueKey, none of the compared fields); any two bare records
compare equal under `areLeadsEqual` (every comparison is skipped); and
consequently, whenever the baseline extraction contains a bare record,
the array-mode diff never reports a bare record of the current snapshot
as new. -/
theorem bare_records_never_new :
    (∀ o : Lead, rawBare o = true → createUniqueKey o = "") ∧
    (∀ o : Lead, rawBare o = true →
      extractItem (.obj o) = setField o "uniqueKey" (JVal.str "") ∧
      isBareLead (extractItem (.obj o)) = true) ∧
    (∀ l1 l2 : Lead, isBareLead l1 = true → isBareLead l2 = true →
      areLeadsEqual l1 l2 = true) ∧
    (∀ prev curr : List JVal,
      (∃ q ∈ extractLeadObjects prev, isBareLead q = true) →
      (detectLeadChangesFromArrays prev curr).newLeads.all
        (fun l => !(isBareLead l)) = true) :=
  ⟨createUniqueKey_of_rawBare,
   fun o h => ⟨extractItem_of_rawBare o h, isBareLead_extract o h⟩,
   areLeadsEqual_of_bare,
   bare_never_new⟩

/-- Claim C10 witness: the bare-record clauses at concrete records (a
baseline and a current record carrying only a `description` field). -/
theorem bare_records_never_new_witness :
    createUniqueKey [("description", JVal.str "d")] = "" ∧
    isBareLead (extractItem (.obj [("description", JVal.str "d")])) = true ∧
    areLeadsEqual [("description", JVal.str "a"), ("uniqueKey", JVal.str "")]
      [("description", JVal.str "b"), ("uniqueKey", JVal.str "")] = true ∧
    (detectLeadChangesFromArrays [JVal.obj [("description", JVal.str "a")]]
      [JVal.obj [("description", JVal.str "b")]]).newLeads.all
      (fun l => !(isBareLead l)) = true := by
  refine ⟨bare_records_never_new.1 _ (by decide),
    (bare_records_never_new.2.1 _ (by decide)).2,
    bare_records_never_new.2.2.1 _ _ (by decide) (by decide),
    bare_records_never_new.2.2.2 _ _
      ⟨[("description", JVal.str "a"), ("uniqueKey", JVal.str "")], ?_, by decide⟩⟩
  show _ ∈ extractLeadObjects [JVal.obj [("description", JVal.str "a")]]
  exact List.Mem.head _

/-- Claim C1 (code defect): when the fetch succeeds, the diff finds a
batch of size at least `minNewLeadsToNotify` and the deduplicator allows
the notification, a webhook POST that resolves (with any status, 2xx or
not) lets the cycle replace the stored baseline and reset `retryCount`
to 0 — but a webhook transport error rejects the delivery promise, the
rejection escapes into `pollLeadsData`'s catch, and the cycle then
leaves the baseline at the old snapshot and increments `retryCount`
instead, contradicting "regardless of the delivery attempt's outcome". -/
theorem pollLeadsData_delivery_outcomes :
    (pollLeadsData CONFIG_changeDetection
      ⟨some "old", some (JVal.arr [JVal.obj [("id", JVal.str "L1")]]), 0, 0, []⟩
      (.response 200 none "new")
      (some (JVal.arr [JVal.obj [("id", JVal.str "L1")], JVal.obj [("id", JVal.str "L2")]]))
      1000000 (.response 500)).state.previousLeadsData = some "new" ∧
    (pollLeadsData CONFIG_changeDetection
      ⟨some "old", some (JVal.arr [JVal.obj [("id", JVal.str "L1")]]), 0, 0, []⟩
      (.response 200 none "new")
      (some (JVal.arr [JVal.obj [("id", JVal.str "L1")], JVal.obj [("id", JVal.str "L2")]]))
      1000000 (.response 500)).state.retryCount = 0 ∧
    (pollLeadsData CONFIG_changeDetection
      ⟨some "old", some (JVal.arr [JVal.obj [("id", JVal.str "L1")]]), 0, 0, []⟩
      (.response 200 none "new")
      (some (JVal.arr [JVal.obj [("id", JVal.str "L1")], JVal.obj [("id", JVal.str "L2")]]))
      1000000 (.response 500)).deliveryAttempts = 1 ∧
    (pollLeadsData CONFIG_changeDetection
      ⟨some "old", some (JVal.arr [JVal.obj [("id", JVal.str "L1")]]), 0, 0, []⟩
      (.response 200 none "new")
      (some (JVal.arr [JVal.obj [("id", JVal.str "L1")], JVal.obj [("id", JVal.str "L2")]]))
      1000000 .transportError).deliveryAttempts = 1 ∧
    (pollLeadsData CONFIG_changeDetection
      ⟨some "old", some (JVal.arr [JVal.obj [("id", JVal.str "L1")]]), 0, 0, []⟩
      (.response 200 none "new")
      (some (JVal.arr [JVal.obj [("id", JVal.str "L1")], JVal.obj [("id", JVal.str "L2")]]))
      1000000 .transportError).state.previousLeadsData = some "old" ∧
    (pollLeadsData CONFIG_changeDetection
      ⟨some "old", some (JVal.arr [JVal.obj [("id", JVal.str "L1")]]), 0, 0, []⟩
      (.response 200 none "new")
      (some (JVal.arr [JVal.obj [("id", JVal.str "L1")], JVal.obj [("id", JVal.str "L2")]]))
      1000000 .transportError).state.retryCount = 1 ∧
    (pollLeadsData CONFIG_changeDetection
      ⟨some "old", some (JVal.arr [JVal.obj [("id", JVal.str "L1")]]), 0, 0, []⟩
      (.response 200 none "new")
      (some (JVal.arr [JVal.obj [("id", JVal.str "L1")], JVal.obj [("id", JVal.str "L2")]]))
      1000000 .transportError).schedule = .backoff 1 :=
  ⟨rfl, rfl, rfl, rfl, rfl, rfl, rfl⟩
